import Mathlib

/-!
# Prediction-market core: shallow embedding and verification

This file embeds the pure state-transition logic of the prediction-market
programs (constant-product AMM pricing, market lifecycle, resolution gating)
and proves properties about it.

Two program variants are embedded:
* the canonical variant (`initialize_market`, `buy_shares`, `sell_shares`,
  `calculate_buy_shares`, `calculate_sell_shares`, `resolve_market`), from
  `frontend/prediction-market/programs/prediction-market/src/lib.rs`;
* the `prediction` variant (namespace `Prediction`), from
  `prediction/programs/prediction/src/lib.rs`, which differs in its time
  gating of trades and its resolution checks.

Machine integers (`u64`) are modelled as `Nat` together with the checked
arithmetic used by the source: every `checked_*` operation fails with
`mathOverflow` exactly when the Rust `.checked_*(..).ok_or(MathOverflow)?`
chain does (product or sum not below `2^64`, subtrahend larger than minuend,
division by zero).  Account plumbing (PDAs, token mints, lamport moves) is
external to the market state machine and is not part of the embedding.
-/

deriving instance DecidableEq for Except

/-- One more than the largest `u64` value: checked `u64` arithmetic fails
when a result is not below this bound. -/
def U64_SIZE : Nat := 2 ^ 64

/-- Error codes of the canonical variant (`PredictionMarketError`). -/
inductive MarketError where
  | marketNotActive
  | marketAlreadyResolved
  | insufficientReserves
  | invalidAmount
  | mathOverflow
  | invalidOutcome
  | unauthorizedResolution
  | statementTooLong
  | invalidCloseTime
  | invalidFee
deriving DecidableEq

/-- Model of `u64::checked_mul` followed by `ok_or(MathOverflow)`. -/
def checkedMul (a b : Nat) : Except MarketError Nat :=
  if a * b < U64_SIZE then .ok (a * b) else .error .mathOverflow

/-- Model of `u64::checked_add` followed by `ok_or(MathOverflow)`. -/
def checkedAdd (a b : Nat) : Except MarketError Nat :=
  if a + b < U64_SIZE then .ok (a + b) else .error .mathOverflow

/-- Model of `u64::checked_sub` followed by `ok_or(MathOverflow)`. -/
def checkedSub (a b : Nat) : Except MarketError Nat :=
  if b ≤ a then .ok (a - b) else .error .mathOverflow

/-- Model of `u64::checked_div` (floor division, `None` exactly on a zero divisor)
followed by `ok_or(MathOverflow)`. -/
def checkedDiv (a b : Nat) : Except MarketError Nat :=
  if b = 0 then .error .mathOverflow else .ok (a / b)

/-- Trade side (`Side` in the source). -/
inductive Side where
  | yes
  | no
deriving DecidableEq

/-- Market lifecycle state (`MarketState` in the source). -/
inductive MarketState where
  | active
  | resolved
  | frozen
deriving DecidableEq

/-- Resolution outcome (`MarketOutcome` in the source). -/
inductive MarketOutcome where
  | yes
  | no
deriving DecidableEq

/-- The `Market` account of the canonical variant.  `Pubkey` identities are
modelled as `Nat`; the token/vault addresses and the PDA bump, which the
state machine never branches on, are omitted. -/
structure Market where
  authority : Nat
  agent : Nat
  market_id : Nat
  statement : String
  closes_at : Int
  reserve_yes : Nat
  reserve_no : Nat
  fee_bps : Nat
  state : MarketState
  outcome : Option MarketOutcome
deriving DecidableEq

/-- The canonical variant's `calculate_buy_shares`: fee on input, then the
constant-product update.  Buying Yes adds the post-fee collateral to the NO
reserve and draws YES from the pool; No is the mirror. -/
def calculate_buy_shares (side : Side) (amount_in reserve_yes reserve_no fee_bps : Nat) :
    Except MarketError (Nat × Nat × Nat) := do
  let t ← checkedMul amount_in fee_bps
  let fee_amount ← checkedDiv t 10000
  let amount_after_fee ← checkedSub amount_in fee_amount
  let k ← checkedMul reserve_yes reserve_no
  match side with
  | Side.yes => do
    let new_reserve_no ← checkedAdd reserve_no amount_after_fee
    let new_reserve_yes ← checkedDiv k new_reserve_no
    let shares_out ← checkedSub reserve_yes new_reserve_yes
    return (shares_out, new_reserve_yes, new_reserve_no)
  | Side.no => do
    let new_reserve_yes ← checkedAdd reserve_yes amount_after_fee
    let new_reserve_no ← checkedDiv k new_reserve_yes
    let shares_out ← checkedSub reserve_no new_reserve_no
    return (shares_out, new_reserve_yes, new_reserve_no)

/-- The canonical variant's `calculate_sell_shares`: constant-product update
first, then fee on output. -/
def calculate_sell_shares (side : Side) (shares_in reserve_yes reserve_no fee_bps : Nat) :
    Except MarketError (Nat × Nat × Nat) := do
  let k ← checkedMul reserve_yes reserve_no
  let r ← match side with
  | Side.yes => do
    let new_reserve_yes ← checkedAdd reserve_yes shares_in
    let new_reserve_no ← checkedDiv k new_reserve_yes
    let sol_before_fee ← checkedSub reserve_no new_reserve_no
    pure (sol_before_fee, new_reserve_yes, new_reserve_no)
  | Side.no => do
    let new_reserve_no ← checkedAdd reserve_no shares_in
    let new_reserve_yes ← checkedDiv k new_reserve_no
    let sol_before_fee ← checkedSub reserve_yes new_reserve_yes
    pure (sol_before_fee, new_reserve_yes, new_reserve_no)
  let (sol_before_fee, new_reserve_yes, new_reserve_no) := r
  let t ← checkedMul sol_before_fee fee_bps
  let fee_amount ← checkedDiv t 10000
  let sol_out ← checkedSub sol_before_fee fee_amount
  return (sol_out, new_reserve_yes, new_reserve_no)

/-- The canonical variant's `buy_shares`: requires an Active market and a
positive amount, computes the trade, rejects a zero share output, and commits
the new reserves.  Returns the shares minted and the updated market. -/
def buy_shares (market : Market) (side : Side) (amount : Nat) :
    Except MarketError (Nat × Market) :=
  if market.state = MarketState.active then
    if 0 < amount then
      match calculate_buy_shares side amount market.reserve_yes market.reserve_no market.fee_bps with
      | .error e => .error e
      | .ok (shares_out, new_reserve_yes, new_reserve_no) =>
        if 0 < shares_out then
          .ok (shares_out,
               { market with reserve_yes := new_reserve_yes, reserve_no := new_reserve_no })
        else .error MarketError.insufficientReserves
    else .error MarketError.invalidAmount
  else .error MarketError.marketNotActive

/-- The canonical variant's `sell_shares`: requires an Active market and a
positive share amount, computes the payout, rejects a zero payout, and
commits the new reserves.  Returns the collateral paid out and the updated
market. -/
def sell_shares (market : Market) (side : Side) (shares : Nat) :
    Except MarketError (Nat × Market) :=
  if market.state = MarketState.active then
    if 0 < shares then
      match calculate_sell_shares side shares market.reserve_yes market.reserve_no market.fee_bps with
      | .error e => .error e
      | .ok (sol_out, new_reserve_yes, new_reserve_no) =>
        if 0 < sol_out then
          .ok (sol_out,
               { market with reserve_yes := new_reserve_yes, reserve_no := new_reserve_no })
        else .error MarketError.insufficientReserves
    else .error MarketError.invalidAmount
  else .error MarketError.marketNotActive

/-- The canonical variant's `resolve_market`: only an Active market can be
resolved; before `closes_at` only the market authority may resolve, from
`closes_at` on any caller may; on success only `state` and `outcome` change. -/
def resolve_market (market : Market) (caller : Nat) (now : Int) (outcome : MarketOutcome) :
    Except MarketError Market :=
  if market.state = MarketState.active then
    if now < market.closes_at then
      if market.authority = caller then
        .ok { market with state := MarketState.resolved, outcome := some outcome }
      else .error MarketError.unauthorizedResolution
    else .ok { market with state := MarketState.resolved, outcome := some outcome }
  else .error MarketError.marketNotActive

/-- The canonical variant's `initialize_market`: validates the statement
length (≤ 256 bytes), a future close time, a positive initial liquidity and
`fee_bps ≤ 10000`, then seeds both reserves with `initial_liquidity / 2`
(checked division) and creates an Active, unresolved market. -/
def initialize_market (authority agent market_id : Nat) (statement : String)
    (closes_at : Int) (initial_liquidity fee_bps : Nat) (now : Int) :
    Except MarketError Market :=
  if ¬ statement.utf8ByteSize ≤ 256 then .error MarketError.statementTooLong
  else if ¬ now < closes_at then .error MarketError.invalidCloseTime
  else if ¬ 0 < initial_liquidity then .error MarketError.invalidAmount
  else if ¬ fee_bps ≤ 10000 then .error MarketError.invalidFee
  else
    match checkedDiv initial_liquidity 2 with
    | .error e => .error e
    | .ok half_liquidity =>
      .ok { authority := authority, agent := agent, market_id := market_id,
            statement := statement, closes_at := closes_at,
            reserve_yes := half_liquidity, reserve_no := half_liquidity,
            fee_bps := fee_bps, state := MarketState.active, outcome := none }

/-- The reserve a Buy adds collateral to (Yes adds to the NO reserve). -/
def buyAddedReserve (side : Side) (m : Market) : Nat :=
  match side with
  | Side.yes => m.reserve_no
  | Side.no => m.reserve_yes

/-- The reserve a Sell adds shares to (selling Yes adds to the YES reserve). -/
def sellAddedReserve (side : Side) (m : Market) : Nat :=
  match side with
  | Side.yes => m.reserve_yes
  | Side.no => m.reserve_no

namespace Prediction

/-- Outcome type of the `prediction` variant. -/
inductive Outcome where
  | yes
  | no
deriving DecidableEq

/-- Error codes of the `prediction` variant (its `ErrorCode`).  The Rust enum
has two distinct variants with the same message, `MarketResolved` and
`MarketAlreadyResolved`; both are kept. -/
inductive PredictionError where
  | questionTooLong
  | invalidEndTime
  | marketResolved
  | marketAlreadyResolved
  | marketEnded
  | marketNotEnded
  | marketNotResolved
  | invalidAmount
  | unauthorized
deriving DecidableEq

/-- The `Market` account of the `prediction` variant. -/
structure PredictionMarket where
  authority : Nat
  market_id : Nat
  question : String
  end_time : Int
  is_resolved : Bool
  winning_outcome : Option Outcome
  total_yes_supply : Nat
  total_no_supply : Nat
deriving DecidableEq

/-- The `prediction` variant's `buy_tokens`: fails on a resolved market, on
`now ≥ end_time`, and on a zero amount; otherwise mints `amount` outcome
tokens 1:1 against collateral (the unchecked Rust `+=` on the supply counter
is modelled as `Nat` addition; no claim touches it). -/
def buy_tokens (market : PredictionMarket) (now : Int) (amount : Nat) (outcome : Outcome) :
    Except PredictionError PredictionMarket :=
  if market.is_resolved then .error PredictionError.marketResolved
  else if ¬ now < market.end_time then .error PredictionError.marketEnded
  else if ¬ 0 < amount then .error PredictionError.invalidAmount
  else match outcome with
    | Outcome.yes => .ok { market with total_yes_supply := market.total_yes_supply + amount }
    | Outcome.no => .ok { market with total_no_supply := market.total_no_supply + amount }

/-- The `prediction` variant's `sell_tokens`: the same resolution, timing and
zero-amount guards as `buy_tokens` (the unchecked Rust `-=` on the supply
counter is modelled as truncated `Nat` subtraction; no claim touches it). -/
def sell_tokens (market : PredictionMarket) (now : Int) (amount : Nat) (outcome : Outcome) :
    Except PredictionError PredictionMarket :=
  if market.is_resolved then .error PredictionError.marketResolved
  else if ¬ now < market.end_time then .error PredictionError.marketEnded
  else if ¬ 0 < amount then .error PredictionError.invalidAmount
  else match outcome with
    | Outcome.yes => .ok { market with total_yes_supply := market.total_yes_supply - amount }
    | Outcome.no => .ok { market with total_no_supply := market.total_no_supply - amount }

/-- The `prediction` variant's `resolve_market`: fails with
`MarketAlreadyResolved` on an already-resolved market, requires the end time
to have passed and the caller to be the market authority. -/
def resolve_market (market : PredictionMarket) (caller : Nat) (now : Int)
    (winning_outcome : Outcome) : Except PredictionError PredictionMarket :=
  if market.is_resolved then .error PredictionError.marketAlreadyResolved
  else if ¬ market.end_time ≤ now then .error PredictionError.marketNotEnded
  else if ¬ caller = market.authority then .error PredictionError.unauthorized
  else .ok { market with is_resolved := true, winning_outcome := some winning_outcome }

end Prediction

/-! ## Inversion lemmas for the checked arithmetic and the pricing engine -/

theorem exceptBind_ok {ε α β : Type} {x : Except ε α} {f : α → Except ε β} {b : β}
    (h : (x >>= f) = Except.ok b) : ∃ a, x = Except.ok a ∧ f a = Except.ok b := by
  cases x with
  | error e => exact Except.noConfusion h
  | ok a => exact ⟨a, rfl, h⟩

theorem checkedMul_ok {a b c : Nat} (h : checkedMul a b = Except.ok c) :
    c = a * b ∧ a * b < U64_SIZE := by
  unfold checkedMul at h
  split at h
  · exact ⟨(Except.ok.injEq _ _).mp h |>.symm, by assumption⟩
  · exact Except.noConfusion h

theorem checkedAdd_ok {a b c : Nat} (h : checkedAdd a b = Except.ok c) :
    c = a + b ∧ a + b < U64_SIZE := by
  unfold checkedAdd at h
  split at h
  · exact ⟨(Except.ok.injEq _ _).mp h |>.symm, by assumption⟩
  · exact Except.noConfusion h

theorem checkedSub_ok {a b c : Nat} (h : checkedSub a b = Except.ok c) :
    c = a - b ∧ b ≤ a := by
  unfold checkedSub at h
  split at h
  · exact ⟨(Except.ok.injEq _ _).mp h |>.symm, by assumption⟩
  · exact Except.noConfusion h

theorem checkedDiv_ok {a b c : Nat} (h : checkedDiv a b = Except.ok c) :
    c = a / b ∧ 0 < b := by
  unfold checkedDiv at h
  split at h
  · exact Except.noConfusion h
  · exact ⟨(Except.ok.injEq _ _).mp h |>.symm, Nat.pos_of_ne_zero (by assumption)⟩

theorem exBind_ok_eq {ε α β : Type} (a : α) (f : α → Except ε β) :
    (Except.ok a >>= f) = f a := rfl

theorem exBind_error_eq {ε α β : Type} (e : ε) (f : α → Except ε β) :
    ((Except.error e : Except ε α) >>= f) = Except.error e := rfl

/-- Successful Yes-buy: the NO reserve grows by the post-fee amount, the YES
reserve is the floored quotient, the shares are the YES decrease. -/
theorem calcBuy_yes_inv {a ry rn fee s ny nn : Nat}
    (h : calculate_buy_shares Side.yes a ry rn fee = Except.ok (s, ny, nn)) :
    nn = rn + (a - a * fee / 10000) ∧ 0 < nn ∧ ny = ry * rn / nn ∧ ny ≤ ry ∧ s = ry - ny := by
  unfold calculate_buy_shares at h
  obtain ⟨t, ht, h⟩ := exceptBind_ok h
  obtain ⟨fee_amount, hfa, h⟩ := exceptBind_ok h
  obtain ⟨after_fee, haf, h⟩ := exceptBind_ok h
  obtain ⟨k, hk, h⟩ := exceptBind_ok h
  obtain ⟨nn', hnn, h⟩ := exceptBind_ok h
  obtain ⟨ny', hny, h⟩ := exceptBind_ok h
  obtain ⟨s', hs, h⟩ := exceptBind_ok h
  obtain ⟨ht, -⟩ := checkedMul_ok ht
  obtain ⟨hfa, -⟩ := checkedDiv_ok hfa
  obtain ⟨haf, -⟩ := checkedSub_ok haf
  obtain ⟨hk, -⟩ := checkedMul_ok hk
  obtain ⟨hnn, -⟩ := checkedAdd_ok hnn
  obtain ⟨hny, hnnpos⟩ := checkedDiv_ok hny
  obtain ⟨hs, hle⟩ := checkedSub_ok hs
  simp only [pure, Except.pure, Except.ok.injEq, Prod.mk.injEq] at h
  obtain ⟨h1, h2, h3⟩ := h
  subst_vars
  exact ⟨rfl, hnnpos, rfl, hle, rfl⟩

/-- Successful No-buy: mirror of `calcBuy_yes_inv`. -/
theorem calcBuy_no_inv {a ry rn fee s ny nn : Nat}
    (h : calculate_buy_shares Side.no a ry rn fee = Except.ok (s, ny, nn)) :
    ny = ry + (a - a * fee / 10000) ∧ 0 < ny ∧ nn = ry * rn / ny ∧ nn ≤ rn ∧ s = rn - nn := by
  unfold calculate_buy_shares at h
  obtain ⟨t, ht, h⟩ := exceptBind_ok h
  obtain ⟨fee_amount, hfa, h⟩ := exceptBind_ok h
  obtain ⟨after_fee, haf, h⟩ := exceptBind_ok h
  obtain ⟨k, hk, h⟩ := exceptBind_ok h
  obtain ⟨ny', hny, h⟩ := exceptBind_ok h
  obtain ⟨nn', hnn, h⟩ := exceptBind_ok h
  obtain ⟨s', hs, h⟩ := exceptBind_ok h
  obtain ⟨ht, -⟩ := checkedMul_ok ht
  obtain ⟨hfa, -⟩ := checkedDiv_ok hfa
  obtain ⟨haf, -⟩ := checkedSub_ok haf
  obtain ⟨hk, -⟩ := checkedMul_ok hk
  obtain ⟨hny, -⟩ := checkedAdd_ok hny
  obtain ⟨hnn, hnypos⟩ := checkedDiv_ok hnn
  obtain ⟨hs, hle⟩ := checkedSub_ok hs
  simp only [pure, Except.pure, Except.ok.injEq, Prod.mk.injEq] at h
  obtain ⟨h1, h2, h3⟩ := h
  subst_vars
  exact ⟨rfl, hnypos, rfl, hle, rfl⟩

/-- Successful Yes-sell: the YES reserve grows by the shares sold, the NO
reserve is the floored quotient, the payout is the NO decrease less the
output fee. -/
theorem calcSell_yes_inv {sh ry rn fee s ny nn : Nat}
    (h : calculate_sell_shares Side.yes sh ry rn fee = Except.ok (s, ny, nn)) :
    ny = ry + sh ∧ 0 < ny ∧ nn = ry * rn / ny ∧ nn ≤ rn ∧
      s = (rn - nn) - (rn - nn) * fee / 10000 := by
  unfold calculate_sell_shares at h
  obtain ⟨k, hk, h⟩ := exceptBind_ok h
  obtain ⟨ny', hny, h⟩ := exceptBind_ok h
  obtain ⟨nn', hnn, h⟩ := exceptBind_ok h
  obtain ⟨sbf, hsbf, h⟩ := exceptBind_ok h
  obtain ⟨r, hr, h⟩ := exceptBind_ok h
  simp only [pure, Except.pure, Except.ok.injEq] at hr
  subst hr
  obtain ⟨t, ht, h⟩ := exceptBind_ok h
  obtain ⟨fee_amount, hfa, h⟩ := exceptBind_ok h
  obtain ⟨so, hso, h⟩ := exceptBind_ok h
  obtain ⟨hk, -⟩ := checkedMul_ok hk
  obtain ⟨hny, -⟩ := checkedAdd_ok hny
  obtain ⟨hnn, hnypos⟩ := checkedDiv_ok hnn
  obtain ⟨hsbf, hsle⟩ := checkedSub_ok hsbf
  obtain ⟨ht, -⟩ := checkedMul_ok ht
  obtain ⟨hfa, -⟩ := checkedDiv_ok hfa
  obtain ⟨hso, -⟩ := checkedSub_ok hso
  simp only [pure, Except.pure, Except.ok.injEq, Prod.mk.injEq] at h
  obtain ⟨h1, h2, h3⟩ := h
  subst_vars
  exact ⟨rfl, hnypos, rfl, hsle, rfl⟩

/-- Successful No-sell: mirror of `calcSell_yes_inv`. -/
theorem calcSell_no_inv {sh ry rn fee s ny nn : Nat}
    (h : calculate_sell_shares Side.no sh ry rn fee = Except.ok (s, ny, nn)) :
    nn = rn + sh ∧ 0 < nn ∧ ny = ry * rn / nn ∧ ny ≤ ry ∧
      s = (ry - ny) - (ry - ny) * fee / 10000 := by
  unfold calculate_sell_shares at h
  obtain ⟨k, hk, h⟩ := exceptBind_ok h
  obtain ⟨nn', hnn, h⟩ := exceptBind_ok h
  obtain ⟨ny', hny, h⟩ := exceptBind_ok h
  obtain ⟨sbf, hsbf, h⟩ := exceptBind_ok h
  obtain ⟨r, hr, h⟩ := exceptBind_ok h
  simp only [pure, Except.pure, Except.ok.injEq] at hr
  subst hr
  obtain ⟨t, ht, h⟩ := exceptBind_ok h
  obtain ⟨fee_amount, hfa, h⟩ := exceptBind_ok h
  obtain ⟨so, hso, h⟩ := exceptBind_ok h
  obtain ⟨hk, -⟩ := checkedMul_ok hk
  obtain ⟨hnn, -⟩ := checkedAdd_ok hnn
  obtain ⟨hny, hnnpos⟩ := checkedDiv_ok hny
  obtain ⟨hsbf, hsle⟩ := checkedSub_ok hsbf
  obtain ⟨ht, -⟩ := checkedMul_ok ht
  obtain ⟨hfa, -⟩ := checkedDiv_ok hfa
  obtain ⟨hso, -⟩ := checkedSub_ok hso
  simp only [pure, Except.pure, Except.ok.injEq, Prod.mk.injEq] at h
  obtain ⟨h1, h2, h3⟩ := h
  subst_vars
  exact ⟨rfl, hnnpos, rfl, hsle, rfl⟩

/-- Successful `buy_shares`: the market was Active, the amount and the share
output are positive, the pricing engine produced the committed reserves, and
every field other than the reserves is unchanged. -/
theorem buyShares_ok {m : Market} {side : Side} {a s : Nat} {m' : Market}
    (h : buy_shares m side a = Except.ok (s, m')) :
    m.state = MarketState.active ∧ 0 < a ∧ 0 < s ∧
      calculate_buy_shares side a m.reserve_yes m.reserve_no m.fee_bps =
        Except.ok (s, m'.reserve_yes, m'.reserve_no) ∧
      m'.state = m.state ∧ m'.fee_bps = m.fee_bps ∧ m'.closes_at = m.closes_at := by
  unfold buy_shares at h
  split at h
  case isFalse => exact Except.noConfusion h
  case isTrue hact =>
    split at h
    case isFalse => exact Except.noConfusion h
    case isTrue hamt =>
      split at h
      case h_1 => exact Except.noConfusion h
      case h_2 shares_out ny nn heq =>
        split at h
        case isFalse => exact Except.noConfusion h
        case isTrue hpos =>
          simp only [Except.ok.injEq, Prod.mk.injEq] at h
          obtain ⟨h1, h2⟩ := h
          subst h1
          subst h2
          exact ⟨hact, hamt, hpos, heq, rfl, rfl, rfl⟩

/-- Successful `sell_shares`: mirror of `buyShares_ok`. -/
theorem sellShares_ok {m : Market} {side : Side} {a s : Nat} {m' : Market}
    (h : sell_shares m side a = Except.ok (s, m')) :
    m.state = MarketState.active ∧ 0 < a ∧ 0 < s ∧
      calculate_sell_shares side a m.reserve_yes m.reserve_no m.fee_bps =
        Except.ok (s, m'.reserve_yes, m'.reserve_no) ∧
      m'.state = m.state ∧ m'.fee_bps = m.fee_bps ∧ m'.closes_at = m.closes_at := by
  unfold sell_shares at h
  split at h
  case isFalse => exact Except.noConfusion h
  case isTrue hact =>
    split at h
    case isFalse => exact Except.noConfusion h
    case isTrue hamt =>
      split at h
      case h_1 => exact Except.noConfusion h
      case h_2 sol_out ny nn heq =>
        split at h
        case isFalse => exact Except.noConfusion h
        case isTrue hpos =>
          simp only [Except.ok.injEq, Prod.mk.injEq] at h
          obtain ⟨h1, h2⟩ := h
          subst h1
          subst h2
          exact ⟨hact, hamt, hpos, heq, rfl, rfl, rfl⟩

/-- Evaluation of a Yes-buy when every checked step succeeds. -/
theorem calcBuy_yes_eval (a ry rn fee : Nat)
    (h1 : a * fee < U64_SIZE) (h2 : a * fee / 10000 ≤ a) (h3 : ry * rn < U64_SIZE)
    (h4 : rn + (a - a * fee / 10000) < U64_SIZE)
    (h5 : 0 < rn + (a - a * fee / 10000))
    (h6 : ry * rn / (rn + (a - a * fee / 10000)) ≤ ry) :
    calculate_buy_shares Side.yes a ry rn fee =
      Except.ok (ry - ry * rn / (rn + (a - a * fee / 10000)),
                 ry * rn / (rn + (a - a * fee / 10000)),
                 rn + (a - a * fee / 10000)) := by
  simp [calculate_buy_shares, checkedMul, checkedDiv, checkedSub, checkedAdd,
        h1, h2, h3, h4, h5.ne', h6, exBind_ok_eq]

/-- Evaluation of a No-buy when every checked step succeeds. -/
theorem calcBuy_no_eval (a ry rn fee : Nat)
    (h1 : a * fee < U64_SIZE) (h2 : a * fee / 10000 ≤ a) (h3 : ry * rn < U64_SIZE)
    (h4 : ry + (a - a * fee / 10000) < U64_SIZE)
    (h5 : 0 < ry + (a - a * fee / 10000))
    (h6 : ry * rn / (ry + (a - a * fee / 10000)) ≤ rn) :
    calculate_buy_shares Side.no a ry rn fee =
      Except.ok (rn - ry * rn / (ry + (a - a * fee / 10000)),
                 ry + (a - a * fee / 10000),
                 ry * rn / (ry + (a - a * fee / 10000))) := by
  simp [calculate_buy_shares, checkedMul, checkedDiv, checkedSub, checkedAdd,
        h1, h2, h3, h4, h5.ne', h6, exBind_ok_eq]

/-! ## Concrete markets used by witnesses and counterexamples -/

/-- Market freshly created with `initial_liquidity = 1000`, `fee_bps = 100`. -/
def c1Market : Market :=
  { authority := 0, agent := 0, market_id := 0, statement := "", closes_at := 10,
    reserve_yes := 500, reserve_no := 500, fee_bps := 100,
    state := MarketState.active, outcome := none }

/-- Active market with reserves 500/500 and a 1% fee. -/
def c2Market : Market :=
  { authority := 0, agent := 0, market_id := 0, statement := "", closes_at := 10,
    reserve_yes := 500, reserve_no := 500, fee_bps := 100,
    state := MarketState.active, outcome := none }

/-- Active zero-fee market with reserves 416/600 (the state reached after a
fee-free Yes-buy of 100 from 500/500). -/
def c2SellMarket : Market :=
  { authority := 0, agent := 0, market_id := 0, statement := "", closes_at := 10,
    reserve_yes := 416, reserve_no := 600, fee_bps := 0,
    state := MarketState.active, outcome := none }

/-! ## C1 -/

/-- C1: creating a market with `fee_bps = 100` and `initial_liquidity = 1000`
seeds `reserve_yes = reserve_no = 500`, and a Yes-buy of `amount_in = 100`
computes fee 1, post-fee amount 99, `k = 250000`, new NO reserve 599, new YES
reserve `250000 / 599 = 417`, and returns `shares_out = 83` — these exact
integers, for any market in that starting state. -/
theorem C1_create_and_buy_scenario (authority agent market_id : Nat) (statement : String)
    (closes_at now : Int) (m : Market)
    (hinit : initialize_market authority agent market_id statement closes_at 1000 100 now =
      Except.ok m) :
    m.reserve_yes = 500 ∧ m.reserve_no = 500 ∧ m.fee_bps = 100 ∧
      m.state = MarketState.active ∧
      100 * 100 / 10000 = 1 ∧ 100 - 1 = 99 ∧ 500 * 500 = 250000 ∧
      (250000 : Nat) / 599 = 417 ∧
      calculate_buy_shares Side.yes 100 500 500 100 = Except.ok (83, 417, 599) ∧
      ∀ m2 : Market, m2.state = MarketState.active → m2.reserve_yes = 500 →
        m2.reserve_no = 500 → m2.fee_bps = 100 →
        buy_shares m2 Side.yes 100 =
          Except.ok (83, { m2 with reserve_yes := 417, reserve_no := 599 }) := by
  have hm : m.reserve_yes = 500 ∧ m.reserve_no = 500 ∧ m.fee_bps = 100 ∧
      m.state = MarketState.active := by
    have hdiv : checkedDiv 1000 2 = Except.ok 500 := by decide
    unfold initialize_market at hinit
    rw [hdiv] at hinit
    split at hinit
    · exact Except.noConfusion hinit
    · split at hinit
      · exact Except.noConfusion hinit
      · split at hinit
        · exact Except.noConfusion hinit
        · split at hinit
          · exact Except.noConfusion hinit
          · injection hinit with h
            subst h
            exact ⟨rfl, rfl, rfl, rfl⟩
  obtain ⟨hy, hn, hf, hs⟩ := hm
  refine ⟨hy, hn, hf, hs, by norm_num, rfl, by norm_num, by decide, by decide, ?_⟩
  intro m2 h1 h2 h3 h4
  have hc : calculate_buy_shares Side.yes 100 500 500 100 = Except.ok (83, 417, 599) := by
    decide
  unfold buy_shares
  rw [h1, h2, h3, h4, hc]
  rfl

/-- Witness for C1 at a concrete creation. -/
theorem C1_create_and_buy_scenario_witness :
    c1Market.reserve_yes = 500 ∧ c1Market.reserve_no = 500 ∧ c1Market.fee_bps = 100 ∧
      c1Market.state = MarketState.active ∧
      100 * 100 / 10000 = 1 ∧ 100 - 1 = 99 ∧ 500 * 500 = 250000 ∧
      (250000 : Nat) / 599 = 417 ∧
      calculate_buy_shares Side.yes 100 500 500 100 = Except.ok (83, 417, 599) ∧
      ∀ m2 : Market, m2.state = MarketState.active → m2.reserve_yes = 500 →
        m2.reserve_no = 500 → m2.fee_bps = 100 →
        buy_shares m2 Side.yes 100 =
          Except.ok (83, { m2 with reserve_yes := 417, reserve_no := 599 }) :=
  C1_create_and_buy_scenario 0 0 0 "" 10 0 c1Market (by decide)

/-! ## C2 -/

/-- C2 counterexample: a successful Yes-buy of 100 on an Active 500/500
market with `fee_bps = 100 > 0` commits reserves 417/599, whose product
`417 * 599 = 249783` is strictly below the old product `250000` — the
reserve product is not `≥` the old one (let alone strictly greater), because
the floored division shrinks the drawn reserve in the trader's favour. -/
theorem C2_conservation_counterexample :
    buy_shares c2Market Side.yes 100 =
      Except.ok (83, { c2Market with reserve_yes := 417, reserve_no := 599 }) ∧
    0 < c2Market.fee_bps ∧ 0 < (100 : Nat) ∧
    ¬ c2Market.reserve_yes * c2Market.reserve_no ≤ 417 * 599 := by decide

/-- C2 amended: after every successful Buy or Sell the reserve product is at
most (not at least) the old product; the floor in `k / new_reserve` can only
lose value from the pool. -/
theorem C2_product_nonincreasing (m : Market) (side : Side) (a s : Nat) (m' : Market) :
    (buy_shares m side a = Except.ok (s, m') →
      m'.reserve_yes * m'.reserve_no ≤ m.reserve_yes * m.reserve_no) ∧
    (sell_shares m side a = Except.ok (s, m') →
      m'.reserve_yes * m'.reserve_no ≤ m.reserve_yes * m.reserve_no) := by
  constructor
  · intro h
    obtain ⟨-, -, -, hc, -, -, -⟩ := buyShares_ok h
    cases side with
    | yes =>
      obtain ⟨hnn, hpos, hny, -, -⟩ := calcBuy_yes_inv hc
      rw [hny]
      exact Nat.div_mul_le_self _ _
    | no =>
      obtain ⟨hny, hpos, hnn, -, -⟩ := calcBuy_no_inv hc
      rw [hnn, Nat.mul_comm]
      exact Nat.div_mul_le_self _ _
  · intro h
    obtain ⟨-, -, -, hc, -, -, -⟩ := sellShares_ok h
    cases side with
    | yes =>
      obtain ⟨hny, hpos, hnn, -, -⟩ := calcSell_yes_inv hc
      rw [hnn, Nat.mul_comm]
      exact Nat.div_mul_le_self _ _
    | no =>
      obtain ⟨hnn, hpos, hny, -, -⟩ := calcSell_no_inv hc
      rw [hny]
      exact Nat.div_mul_le_self _ _

/-- Witness for C2 amended: a concrete buy (500/500 → 417/599) and a concrete
sell (416/600 → 500/499). -/
theorem C2_product_nonincreasing_witness :
    417 * 599 ≤ 500 * 500 ∧ 500 * 499 ≤ 416 * 600 :=
  ⟨(C2_product_nonincreasing c2Market Side.yes 100 83
      { c2Market with reserve_yes := 417, reserve_no := 599 }).1 (by decide),
   (C2_product_nonincreasing c2SellMarket Side.yes 84 101
      { c2SellMarket with reserve_yes := 500, reserve_no := 499 }).2 (by decide)⟩

/-! ## C3 -/

/-- Active market with both reserves at 1 and no fee. -/
def c3Market : Market :=
  { authority := 0, agent := 0, market_id := 0, statement := "", closes_at := 10,
    reserve_yes := 1, reserve_no := 1, fee_bps := 0,
    state := MarketState.active, outcome := none }

/-- C3 counterexample: a successful Yes-buy of 1 on an Active 1/1 market
drains the YES reserve to exactly 0 while the market stays Active; moreover
creation with `initial_liquidity = 1` (which passes the `> 0` check) seeds an
Active market whose reserves are both 0, since `1 / 2 = 0`. -/
theorem C3_positivity_counterexample :
    buy_shares c3Market Side.yes 1 =
      Except.ok (1, { c3Market with reserve_yes := 0, reserve_no := 2 }) ∧
    ({ c3Market with reserve_yes := 0, reserve_no := 2 } : Market).state =
      MarketState.active ∧
    ¬ 0 < ({ c3Market with reserve_yes := 0, reserve_no := 2 } : Market).reserve_yes ∧
    initialize_market 0 0 0 "" 10 1 0 0 =
      Except.ok { c3Market with reserve_yes := 0, reserve_no := 0 } := by decide

/-- C3 amended: creation with `initial_liquidity ≥ 2` seeds both reserves
positive, and every successful Buy or Sell keeps the market Active and the
reserve being added to strictly positive; the drawn reserve, however, can
reach exactly 0 (see the counterexample). -/
theorem C3_positivity_amended (authority agent market_id : Nat) (statement : String)
    (closes_at now : Int) (l fee : Nat) (m0 m : Market) (side : Side) (a s : Nat)
    (m' : Market) :
    (initialize_market authority agent market_id statement closes_at l fee now =
        Except.ok m0 →
      2 ≤ l → 0 < m0.reserve_yes ∧ 0 < m0.reserve_no) ∧
    (buy_shares m side a = Except.ok (s, m') →
      0 < buyAddedReserve side m' ∧ m'.state = m.state) ∧
    (sell_shares m side a = Except.ok (s, m') →
      0 < sellAddedReserve side m' ∧ m'.state = m.state) := by
  refine ⟨?_, ?_, ?_⟩
  · intro hinit hl
    have hdiv : checkedDiv l 2 = Except.ok (l / 2) := by
      unfold checkedDiv
      rw [if_neg (by norm_num)]
    unfold initialize_market at hinit
    rw [hdiv] at hinit
    split at hinit
    · exact Except.noConfusion hinit
    · split at hinit
      · exact Except.noConfusion hinit
      · split at hinit
        · exact Except.noConfusion hinit
        · split at hinit
          · exact Except.noConfusion hinit
          · injection hinit with h
            subst h
            exact ⟨Nat.div_pos hl (by norm_num), Nat.div_pos hl (by norm_num)⟩
  · intro h
    obtain ⟨-, -, -, hc, hst, -, -⟩ := buyShares_ok h
    cases side with
    | yes =>
      obtain ⟨-, hpos, -, -, -⟩ := calcBuy_yes_inv hc
      exact ⟨hpos, hst⟩
    | no =>
      obtain ⟨-, hpos, -, -, -⟩ := calcBuy_no_inv hc
      exact ⟨hpos, hst⟩
  · intro h
    obtain ⟨-, -, -, hc, hst, -, -⟩ := sellShares_ok h
    cases side with
    | yes =>
      obtain ⟨-, hpos, -, -, -⟩ := calcSell_yes_inv hc
      exact ⟨hpos, hst⟩
    | no =>
      obtain ⟨-, hpos, -, -, -⟩ := calcSell_no_inv hc
      exact ⟨hpos, hst⟩

/-- Witness for C3 amended: creation with liquidity 1000, the C1 buy, and the
416/600 sell. -/
theorem C3_positivity_amended_witness :
    (0 < c1Market.reserve_yes ∧ 0 < c1Market.reserve_no) ∧
    (0 < buyAddedReserve Side.yes { c2Market with reserve_yes := 417, reserve_no := 599 } ∧
      ({ c2Market with reserve_yes := 417, reserve_no := 599 } : Market).state =
        c2Market.state) ∧
    (0 < sellAddedReserve Side.yes
        { c2SellMarket with reserve_yes := 500, reserve_no := 499 } ∧
      ({ c2SellMarket with reserve_yes := 500, reserve_no := 499 } : Market).state =
        c2SellMarket.state) :=
  ⟨(C3_positivity_amended 0 0 0 "" 10 0 1000 100 c1Market c2Market Side.yes 100 83
      { c2Market with reserve_yes := 417, reserve_no := 599 }).1 (by decide) (by norm_num),
   (C3_positivity_amended 0 0 0 "" 10 0 1000 100 c1Market c2Market Side.yes 100 83
      { c2Market with reserve_yes := 417, reserve_no := 599 }).2.1 (by decide),
   (C3_positivity_amended 0 0 0 "" 10 0 1000 100 c1Market c2SellMarket Side.yes 84 101
      { c2SellMarket with reserve_yes := 500, reserve_no := 499 }).2.2 (by decide)⟩

/-! ## C4 -/

/-- Active market whose creator is identity 0 and which closes at time 10. -/
def c4Market : Market :=
  { authority := 0, agent := 0, market_id := 0, statement := "", closes_at := 10,
    reserve_yes := 500, reserve_no := 500, fee_bps := 100,
    state := MarketState.active, outcome := none }

/-- C4: on an Active market, Resolve before `closes_at` by a caller other
than the creator fails with Unauthorized (no state change), while Resolve at
or after `closes_at` succeeds for any caller. -/
theorem C4_resolution_authority (m : Market) (caller : Nat) (now : Int) (o : MarketOutcome)
    (hact : m.state = MarketState.active) :
    (now < m.closes_at → caller ≠ m.authority →
      resolve_market m caller now o = Except.error MarketError.unauthorizedResolution) ∧
    (m.closes_at ≤ now →
      resolve_market m caller now o =
        Except.ok { m with state := MarketState.resolved, outcome := some o }) := by
  constructor
  · intro ht hne
    unfold resolve_market
    rw [if_pos hact, if_pos ht, if_neg (fun h => hne h.symm)]
  · intro ht
    unfold resolve_market
    rw [if_pos hact, if_neg (not_lt.mpr ht)]

/-- Witness for C4: caller 1 ≠ creator 0 fails at time 5 < 10, succeeds at
time 20 ≥ 10. -/
theorem C4_resolution_authority_witness :
    resolve_market c4Market 1 5 MarketOutcome.yes =
      Except.error MarketError.unauthorizedResolution ∧
    resolve_market c4Market 1 20 MarketOutcome.yes =
      Except.ok { c4Market with
        state := MarketState.resolved
        outcome := some MarketOutcome.yes } :=
  ⟨(C4_resolution_authority c4Market 1 5 MarketOutcome.yes (by decide)).1
      (by decide) (by decide),
   (C4_resolution_authority c4Market 1 20 MarketOutcome.yes (by decide)).2 (by decide)⟩

/-! ## C5 -/

/-- Active market for the double-resolution scenario. -/
def c5Market : Market :=
  { authority := 0, agent := 0, market_id := 0, statement := "", closes_at := 10,
    reserve_yes := 500, reserve_no := 500, fee_bps := 100,
    state := MarketState.active, outcome := none }

/-- Unresolved market of the `prediction` variant. -/
def p5Market : Prediction.PredictionMarket :=
  { authority := 0, market_id := 0, question := "", end_time := 10,
    is_resolved := false, winning_outcome := none,
    total_yes_supply := 0, total_no_supply := 0 }

/-- C5 counterexample: in the canonical variant a second Resolve on an
already-resolved market fails with `MarketNotActive` (the `state == Active`
check fires first), not with `MarketAlreadyResolved` as the claim states. -/
theorem C5_double_resolve_counterexample :
    resolve_market c5Market 0 20 MarketOutcome.yes =
      Except.ok { c5Market with
        state := MarketState.resolved
        outcome := some MarketOutcome.yes } ∧
    resolve_market
        { c5Market with
          state := MarketState.resolved
          outcome := some MarketOutcome.yes } 0 21 MarketOutcome.no =
      Except.error MarketError.marketNotActive ∧
    MarketError.marketNotActive ≠ MarketError.marketAlreadyResolved := by decide

/-- C5 amended: a second Resolve always fails and changes nothing, but the
error is `MarketNotActive` in the canonical variant; only the `prediction`
variant reports `MarketAlreadyResolved`. -/
theorem C5_double_resolve_amended (m m' : Market) (c d : Nat) (t u : Int)
    (o p : MarketOutcome) (pm pm' : Prediction.PredictionMarket)
    (w v : Prediction.Outcome) :
    (resolve_market m c t o = Except.ok m' →
      resolve_market m' d u p = Except.error MarketError.marketNotActive) ∧
    (Prediction.resolve_market pm c t w = Except.ok pm' →
      Prediction.resolve_market pm' d u v =
        Except.error Prediction.PredictionError.marketAlreadyResolved) := by
  constructor
  · intro h
    have hst : m'.state = MarketState.resolved := by
      unfold resolve_market at h
      split at h
      · split at h
        · split at h
          · injection h with h
            subst h
            rfl
          · exact Except.noConfusion h
        · injection h with h
          subst h
          rfl
      · exact Except.noConfusion h
    unfold resolve_market
    rw [hst, if_neg (by decide)]
  · intro h
    have hres : pm'.is_resolved = true := by
      unfold Prediction.resolve_market at h
      split at h
      · exact Except.noConfusion h
      · split at h
        · exact Except.noConfusion h
        · split at h
          · exact Except.noConfusion h
          · injection h with h
            subst h
            rfl
    unfold Prediction.resolve_market
    rw [if_pos hres]

/-- Witness for C5 amended at concrete resolved markets of both variants. -/
theorem C5_double_resolve_amended_witness :
    resolve_market
        { c5Market with
          state := MarketState.resolved
          outcome := some MarketOutcome.yes } 1 21 MarketOutcome.no =
      Except.error MarketError.marketNotActive ∧
    Prediction.resolve_market
        { p5Market with
          is_resolved := true
          winning_outcome := some Prediction.Outcome.yes } 1 21 Prediction.Outcome.no =
      Except.error Prediction.PredictionError.marketAlreadyResolved :=
  ⟨(C5_double_resolve_amended c5Market
      { c5Market with state := MarketState.resolved, outcome := some MarketOutcome.yes }
      0 1 20 21 MarketOutcome.yes MarketOutcome.no p5Market
      { p5Market with
        is_resolved := true
        winning_outcome := some Prediction.Outcome.yes }
      Prediction.Outcome.yes Prediction.Outcome.no).1 (by decide),
   (C5_double_resolve_amended c5Market
      { c5Market with state := MarketState.resolved, outcome := some MarketOutcome.yes }
      0 1 20 21 MarketOutcome.yes MarketOutcome.no p5Market
      { p5Market with
        is_resolved := true
        winning_outcome := some Prediction.Outcome.yes }
      Prediction.Outcome.yes Prediction.Outcome.no).2 (by decide)⟩

/-! ## C6 -/

/-- Active market for the resolution frame condition. -/
def c6Market : Market :=
  { authority := 3, agent := 4, market_id := 5, statement := "q", closes_at := 10,
    reserve_yes := 500, reserve_no := 600, fee_bps := 100,
    state := MarketState.active, outcome := none }

/-- C6: a successful Resolve changes only `state` (to Resolved) and `outcome`
(to the given value); every other market field is unchanged. -/
theorem C6_resolve_frame (m : Market) (c : Nat) (n : Int) (o : MarketOutcome) (m' : Market)
    (h : resolve_market m c n o = Except.ok m') :
    m'.authority = m.authority ∧ m'.agent = m.agent ∧ m'.market_id = m.market_id ∧
    m'.statement = m.statement ∧ m'.closes_at = m.closes_at ∧
    m'.reserve_yes = m.reserve_yes ∧ m'.reserve_no = m.reserve_no ∧
    m'.fee_bps = m.fee_bps ∧ m'.state = MarketState.resolved ∧ m'.outcome = some o := by
  unfold resolve_market at h
  split at h
  · split at h
    · split at h
      · injection h with h
        subst h
        exact ⟨rfl, rfl, rfl, rfl, rfl, rfl, rfl, rfl, rfl, rfl⟩
      · exact Except.noConfusion h
    · injection h with h
      subst h
      exact ⟨rfl, rfl, rfl, rfl, rfl, rfl, rfl, rfl, rfl, rfl⟩
  · exact Except.noConfusion h

/-- Witness for C6 at a concrete post-close resolution. -/
theorem C6_resolve_frame_witness :
    ({ c6Market with
       state := MarketState.resolved
       outcome := some MarketOutcome.no } : Market).authority = c6Market.authority ∧
    ({ c6Market with
       state := MarketState.resolved
       outcome := some MarketOutcome.no } : Market).agent = c6Market.agent ∧
    ({ c6Market with
       state := MarketState.resolved
       outcome := some MarketOutcome.no } : Market).market_id = c6Market.market_id ∧
    ({ c6Market with
       state := MarketState.resolved
       outcome := some MarketOutcome.no } : Market).statement = c6Market.statement ∧
    ({ c6Market with
       state := MarketState.resolved
       outcome := some MarketOutcome.no } : Market).closes_at = c6Market.closes_at ∧
    ({ c6Market with
       state := MarketState.resolved
       outcome := some MarketOutcome.no } : Market).reserve_yes = c6Market.reserve_yes ∧
    ({ c6Market with
       state := MarketState.resolved
       outcome := some MarketOutcome.no } : Market).reserve_no = c6Market.reserve_no ∧
    ({ c6Market with
       state := MarketState.resolved
       outcome := some MarketOutcome.no } : Market).fee_bps = c6Market.fee_bps ∧
    ({ c6Market with
       state := MarketState.resolved
       outcome := some MarketOutcome.no } : Market).state = MarketState.resolved ∧
    ({ c6Market with
       state := MarketState.resolved
       outcome := some MarketOutcome.no } : Market).outcome = some MarketOutcome.no :=
  C6_resolve_frame c6Market 7 20 MarketOutcome.no
    { c6Market with state := MarketState.resolved, outcome := some MarketOutcome.no }
    (by decide)

/-! ## C7 -/

/-- Active canonical-variant market that closed at time 0. -/
def c7Market : Market :=
  { authority := 0, agent := 0, market_id := 0, statement := "", closes_at := 0,
    reserve_yes := 500, reserve_no := 500, fee_bps := 100,
    state := MarketState.active, outcome := none }

/-- C7 counterexample: the canonical variant's Buy and Sell never consult the
clock (their embedding takes no time argument), so on an Active market whose
`closes_at = 0` has already passed at `now = 5` both trades still succeed — a
trade at `now ≥ close_time` succeeding, contrary to the claim. -/
theorem C7_trading_after_close_counterexample :
    c7Market.closes_at ≤ 5 ∧ c7Market.state = MarketState.active ∧
    buy_shares c7Market Side.yes 100 =
      Except.ok (83, { c7Market with reserve_yes := 417, reserve_no := 599 }) ∧
    sell_shares c7Market Side.yes 100 =
      Except.ok (84, { c7Market with reserve_yes := 600, reserve_no := 416 }) := by
  decide

/-- C7 amended: only the `prediction` variant enforces the time gate — there,
for every market and every call with `now ≥ end_time`, Buy and Sell fail and
leave the market unchanged, whether or not the market is resolved. -/
theorem C7_time_gate_amended (pm : Prediction.PredictionMarket) (now : Int) (a : Nat)
    (o : Prediction.Outcome) (hnow : pm.end_time ≤ now) :
    (∃ e, Prediction.buy_tokens pm now a o = Except.error e) ∧
    (∃ e, Prediction.sell_tokens pm now a o = Except.error e) := by
  constructor
  · unfold Prediction.buy_tokens
    by_cases hres : pm.is_resolved = true
    · exact ⟨Prediction.PredictionError.marketResolved, by rw [if_pos hres]⟩
    · exact ⟨Prediction.PredictionError.marketEnded,
        by rw [if_neg hres, if_pos (not_lt.mpr hnow)]⟩
  · unfold Prediction.sell_tokens
    by_cases hres : pm.is_resolved = true
    · exact ⟨Prediction.PredictionError.marketResolved, by rw [if_pos hres]⟩
    · exact ⟨Prediction.PredictionError.marketEnded,
        by rw [if_neg hres, if_pos (not_lt.mpr hnow)]⟩

/-- Witness for C7 amended at a concrete ended, unresolved market. -/
theorem C7_time_gate_amended_witness :
    (∃ e, Prediction.buy_tokens p5Market 10 3 Prediction.Outcome.yes = Except.error e) ∧
    (∃ e, Prediction.sell_tokens p5Market 10 3 Prediction.Outcome.yes = Except.error e) :=
  C7_time_gate_amended p5Market 10 3 Prediction.Outcome.yes (by decide)

/-! ## C8 -/

/-- Active zero-fee market with reserves 500/500. -/
def c8Market : Market :=
  { authority := 0, agent := 0, market_id := 0, statement := "", closes_at := 10,
    reserve_yes := 500, reserve_no := 500, fee_bps := 0,
    state := MarketState.active, outcome := none }

/-- The market after a fee-free Yes-buy of 100 on `c8Market`. -/
def c8After : Market := { c8Market with reserve_yes := 416, reserve_no := 600 }

/-- C8 failing input: on a zero-fee 500/500 market, Buy Yes 100 yields 84
shares, and immediately selling those 84 shares back returns 101 > 100
collateral — the round trip produces a profit, violating the inverse bound
`collateral_out ≤ x` (the floored divisions both round in the trader's
favour). -/
theorem C8_roundtrip_profit :
    buy_shares c8Market Side.yes 100 = Except.ok (84, c8After) ∧
    sell_shares c8After Side.yes 84 =
      Except.ok (101, { c8After with reserve_yes := 500, reserve_no := 499 }) ∧
    ¬ (101 : Nat) ≤ 100 ∧ c8Market.fee_bps = 0 := by decide

/-! ## C9 -/

/-- Active market with a 100% fee. -/
def c9Market : Market :=
  { authority := 0, agent := 0, market_id := 0, statement := "", closes_at := 10,
    reserve_yes := 500, reserve_no := 500, fee_bps := 10000,
    state := MarketState.active, outcome := none }

/-- C9: with `fee_bps = 10000` every Buy with a positive amount fails (so
reserves never change); when no checked step overflows and both reserves are
positive, the failure is exactly the zero-output rejection: the fee consumes
the whole input, the curve returns the reserves unchanged with
`shares_out = 0`, and `buy_shares` reports `InsufficientReserves`. -/
theorem C9_full_fee_buy_always_fails (m : Market) (side : Side) (x : Nat)
    (hfee : m.fee_bps = 10000) (hx : 0 < x) :
    (∃ e, buy_shares m side x = Except.error e) ∧
    (m.state = MarketState.active → x * 10000 < U64_SIZE →
      m.reserve_yes * m.reserve_no < U64_SIZE →
      0 < m.reserve_yes → 0 < m.reserve_no →
      x * 10000 / 10000 = x ∧
      calculate_buy_shares side x m.reserve_yes m.reserve_no 10000 =
        Except.ok (0, m.reserve_yes, m.reserve_no) ∧
      buy_shares m side x = Except.error MarketError.insufficientReserves) := by
  have key : ∀ s ny nn, calculate_buy_shares side x m.reserve_yes m.reserve_no m.fee_bps =
      Except.ok (s, ny, nn) → s = 0 := by
    intro s ny nn hc
    rw [hfee] at hc
    have hfa : x * 10000 / 10000 = x := Nat.mul_div_cancel x (by norm_num)
    cases side with
    | yes =>
      obtain ⟨hnn, hpos, hny, -, hs⟩ := calcBuy_yes_inv hc
      rw [hfa, Nat.sub_self, Nat.add_zero] at hnn
      rw [hnn] at hpos hny
      rw [Nat.mul_div_cancel _ hpos] at hny
      omega
    | no =>
      obtain ⟨hny, hpos, hnn, -, hs⟩ := calcBuy_no_inv hc
      rw [hfa, Nat.sub_self, Nat.add_zero] at hny
      rw [hny] at hpos hnn
      rw [Nat.mul_div_cancel_left _ hpos] at hnn
      omega
  constructor
  · cases hval : buy_shares m side x with
    | error e => exact ⟨e, rfl⟩
    | ok p =>
      obtain ⟨s, m'⟩ := p
      obtain ⟨-, -, hspos, hc, -, -, -⟩ := buyShares_ok hval
      have := key s m'.reserve_yes m'.reserve_no hc
      omega
  · intro hact hxm hkm hry hrn
    have hfa : x * 10000 / 10000 = x := Nat.mul_div_cancel x (by norm_num)
    have hrnU : m.reserve_no < U64_SIZE :=
      Nat.lt_of_le_of_lt (Nat.le_mul_of_pos_left _ hry) hkm
    have hryU : m.reserve_yes < U64_SIZE :=
      Nat.lt_of_le_of_lt (Nat.le_mul_of_pos_right _ hrn) hkm
    have hcalc : calculate_buy_shares side x m.reserve_yes m.reserve_no 10000 =
        Except.ok (0, m.reserve_yes, m.reserve_no) := by
      cases side with
      | yes =>
        simp [calculate_buy_shares, checkedMul, checkedDiv, checkedSub, checkedAdd,
              hxm, hfa, hkm, Nat.sub_self, hrnU, hrn.ne',
              Nat.mul_div_cancel _ hrn, exBind_ok_eq]
      | no =>
        simp [calculate_buy_shares, checkedMul, checkedDiv, checkedSub, checkedAdd,
              hxm, hfa, hkm, Nat.sub_self, hryU, hry.ne',
              Nat.mul_div_cancel_left _ hry, exBind_ok_eq]
    have hbuy : buy_shares m side x = Except.error MarketError.insufficientReserves := by
      unfold buy_shares
      rw [if_pos hact, if_pos hx, hfee, hcalc]
      rfl
    exact ⟨hfa, hcalc, hbuy⟩

/-- Witness for C9 at a concrete full-fee market and amount. -/
theorem C9_full_fee_buy_always_fails_witness :
    (∃ e, buy_shares c9Market Side.yes 7 = Except.error e) ∧
    (7 * 10000 / 10000 = 7 ∧
      calculate_buy_shares Side.yes 7 c9Market.reserve_yes c9Market.reserve_no 10000 =
        Except.ok (0, c9Market.reserve_yes, c9Market.reserve_no) ∧
      buy_shares c9Market Side.yes 7 = Except.error MarketError.insufficientReserves) :=
  ⟨(C9_full_fee_buy_always_fails c9Market Side.yes 7 (by decide) (by decide)).1,
   (C9_full_fee_buy_always_fails c9Market Side.yes 7 (by decide) (by decide)).2
     (by decide) (by decide) (by decide) (by decide) (by decide)⟩

/-! ## C10 -/

/-- C10: in the buy computation, once the steps before the final subtraction
succeed and the reserve being added to is positive, the floored quotient
`k / new_added_reserve` never exceeds the old drawn reserve, so the checked
subtraction producing `shares_out` cannot fail and the whole computation
returns `ok`. -/
theorem C10_shares_sub_safe (a ry rn fee : Nat)
    (h1 : a * fee < U64_SIZE) (h2 : a * fee / 10000 ≤ a) (h3 : ry * rn < U64_SIZE) :
    (0 < rn → rn + (a - a * fee / 10000) < U64_SIZE →
      ry * rn / (rn + (a - a * fee / 10000)) ≤ ry ∧
      ∃ r, calculate_buy_shares Side.yes a ry rn fee = Except.ok r) ∧
    (0 < ry → ry + (a - a * fee / 10000) < U64_SIZE →
      ry * rn / (ry + (a - a * fee / 10000)) ≤ rn ∧
      ∃ r, calculate_buy_shares Side.no a ry rn fee = Except.ok r) := by
  constructor
  · intro hrn hadd
    have hle : ry * rn / (rn + (a - a * fee / 10000)) ≤ ry := by
      calc ry * rn / (rn + (a - a * fee / 10000)) ≤ ry * rn / rn :=
            Nat.div_le_div_left (Nat.le_add_right _ _) hrn
        _ = ry := Nat.mul_div_cancel ry hrn
    exact ⟨hle, ⟨_, calcBuy_yes_eval a ry rn fee h1 h2 h3 hadd
      (Nat.lt_of_lt_of_le hrn (Nat.le_add_right _ _)) hle⟩⟩
  · intro hry hadd
    have hle : ry * rn / (ry + (a - a * fee / 10000)) ≤ rn := by
      calc ry * rn / (ry + (a - a * fee / 10000)) ≤ ry * rn / ry :=
            Nat.div_le_div_left (Nat.le_add_right _ _) hry
        _ = rn := Nat.mul_div_cancel_left rn hry
    exact ⟨hle, ⟨_, calcBuy_no_eval a ry rn fee h1 h2 h3 hadd
      (Nat.lt_of_lt_of_le hry (Nat.le_add_right _ _)) hle⟩⟩

/-- Witness for C10 at the C1 trade parameters, on both sides. -/
theorem C10_shares_sub_safe_witness :
    (500 * 500 / (500 + (100 - 100 * 100 / 10000)) ≤ 500 ∧
      ∃ r, calculate_buy_shares Side.yes 100 500 500 100 = Except.ok r) ∧
    (500 * 500 / (500 + (100 - 100 * 100 / 10000)) ≤ 500 ∧
      ∃ r, calculate_buy_shares Side.no 100 500 500 100 = Except.ok r) :=
  ⟨(C10_shares_sub_safe 100 500 500 100 (by decide) (by decide) (by decide)).1
      (by decide) (by decide),
   (C10_shares_sub_safe 100 500 500 100 (by decide) (by decide) (by decide)).2
      (by decide) (by decide)⟩
